import Mathlib

/-!
Shallow embedding of the chat widget in `src/components/ChatInterface.jsx`:
a message list, a loading flag, two provider adapters (Anthropic / OpenAI),
and a two-entry localStorage-backed preference store.

JavaScript `undefined` string values are modelled as `Option String`
(`none` = undefined).  HTTP interaction is modelled by passing the fetch
outcome in as a parameter (`Except String resp`: `Except.error` is a
transport-level failure, `Except.ok` a settled HTTP response whose body is
already parsed), and by returning the list of requests a call issued.
-/

/-- A chat message: `{ role, content }`.  `content` is `Option String`
because the code can construct a message whose content is `undefined`. -/
structure Message where
  role : String
  content : Option String
deriving DecidableEq, Repr

/-- One element of the Anthropic response `content` array (its `text` field). -/
structure ContentBlock where
  text : String
deriving DecidableEq, Repr

/-- Parsed body plus status of a settled Anthropic HTTP response.
`errorMessage` models `body.error?.message` (`none` = absent). -/
structure AnthropicResponse where
  ok : Bool
  errorMessage : Option String
  content : List ContentBlock
deriving DecidableEq, Repr

/-- The `message` object of an OpenAI choice (its `content` field). -/
structure ChoiceMessage where
  content : String
deriving DecidableEq, Repr

/-- One element of the OpenAI response `choices` array. -/
structure Choice where
  message : ChoiceMessage
deriving DecidableEq, Repr

/-- Parsed body plus status of a settled OpenAI HTTP response. -/
structure OpenAIResponse where
  ok : Bool
  errorMessage : Option String
  choices : List Choice
deriving DecidableEq, Repr

/-- The request `callAnthropicAPI` issues: URL, method, headers and JSON body
fields, as in `ChatInterface.jsx` lines 59-71. -/
structure AnthropicRequest where
  url : String
  method : String
  contentType : String
  xApiKey : String
  anthropicVersion : String
  model : String
  max_tokens : Nat
  messages : List Message
deriving DecidableEq, Repr

/-- The request `callOpenAIAPI` issues: URL, method, headers and JSON body
fields, as in `ChatInterface.jsx` lines 83-93. -/
structure OpenAIRequest where
  url : String
  method : String
  contentType : String
  authorization : String
  model : String
  messages : List Message
deriving DecidableEq, Repr

/-- An outbound HTTP request, tagged by provider endpoint. -/
inductive Request where
  | anthropic (r : AnthropicRequest)
  | openai (r : OpenAIRequest)
deriving DecidableEq, Repr

/-- JavaScript `String.prototype.trim`: strips leading and trailing
whitespace.  Written over the character list so it evaluates by kernel
reduction. -/
def jsTrim (s : String) : String :=
  String.mk (((s.data.dropWhile Char.isWhitespace).reverse.dropWhile Char.isWhitespace).reverse)

/-- The `error.error?.message || "API request failed"` fallback: JavaScript
`||` falls through on the empty string as well as on an absent field. -/
def apiErrorMessage (errorMessage : Option String) : String :=
  match errorMessage with
  | some m => if m = "" then "API request failed" else m
  | none => "API request failed"

/-- `callAnthropicAPI` (lines 58-80): builds the POST request, then either
propagates a transport failure, rejects a non-ok response with the body
error message, or returns `data.content[0].text`.  An empty `content`
array makes the `[0].text` access throw, modelled as an error. -/
def callAnthropicAPI (apiKey : String) (messageHistory : List Message)
    (fetched : Except String AnthropicResponse) : Request × Except String String :=
  (Request.anthropic
    { url := "https://api.anthropic.com/v1/messages"
      method := "POST"
      contentType := "application/json"
      xApiKey := apiKey
      anthropicVersion := "2023-06-01"
      model := "claude-3-5-sonnet-20241022"
      max_tokens := 2048
      messages := messageHistory },
   match fetched with
   | Except.error e => Except.error e
   | Except.ok response =>
     if response.ok = false then
       Except.error (apiErrorMessage response.errorMessage)
     else
       match response.content with
       | [] => Except.error "Cannot read properties of undefined"
       | block :: _ => Except.ok block.text)

/-- `callOpenAIAPI` (lines 82-102): builds the POST request, then either
propagates a transport failure, rejects a non-ok response with the body
error message, or returns `data.choices[0].message.content`. -/
def callOpenAIAPI (apiKey : String) (messageHistory : List Message)
    (fetched : Except String OpenAIResponse) : Request × Except String String :=
  (Request.openai
    { url := "https://api.openai.com/v1/chat/completions"
      method := "POST"
      contentType := "application/json"
      authorization := "Bearer " ++ apiKey
      model := "gpt-4"
      messages := messageHistory },
   match fetched with
   | Except.error e => Except.error e
   | Except.ok response =>
     if response.ok = false then
       Except.error (apiErrorMessage response.errorMessage)
     else
       match response.choices with
       | [] => Except.error "Cannot read properties of undefined"
       | choice :: _ => Except.ok choice.message.content)

/-- The React component state of `ChatInterface`. -/
structure ChatState where
  messages : List Message
  input : String
  isLoading : Bool
  apiKey : String
  provider : String
  showSettings : Bool
deriving DecidableEq, Repr

/-- Initial component state (lines 6-16): one synthetic assistant greeting,
empty input and key, provider defaulted to `anthropic`. -/
def initialState (agentDescription : String) : ChatState :=
  { messages := [⟨"assistant", some ("Hello! I\x27m " ++ agentDescription ++ ". How can I help you today?")⟩]
    input := ""
    isLoading := false
    apiKey := ""
    provider := "anthropic"
    showSettings := false }

/-- The two localStorage entries the component uses (`none` = key absent). -/
structure LocalStorage where
  ai_api_key : Option String
  ai_provider : Option String
deriving DecidableEq, Repr

/-- `saveSettings` (lines 42-48): no-op when the key is blank after trimming;
otherwise stores the trimmed key and the provider and closes the modal. -/
def saveSettings (s : ChatState) (store : LocalStorage) : ChatState × LocalStorage :=
  if jsTrim s.apiKey = "" then
    (s, store)
  else
    ({ s with showSettings := false },
     { ai_api_key := some (jsTrim s.apiKey), ai_provider := some s.provider })

/-- `clearSettings` (lines 50-56): removes both entries and resets the
in-memory key and provider. -/
def clearSettings (s : ChatState) (store : LocalStorage) : ChatState × LocalStorage :=
  ({ s with apiKey := "", provider := "anthropic", showSettings := true },
   { ai_api_key := none, ai_provider := none })

/-- The mount effect (lines 20-25): `if (storedKey) setApiKey(storedKey)` and
likewise for the provider — a stored empty string is falsy and is ignored. -/
def loadStoredSettings (s : ChatState) (store : LocalStorage) : ChatState :=
  let s1 := match store.ai_api_key with
    | some k => if k = "" then s else { s with apiKey := k }
    | none => s
  match store.ai_provider with
  | some p => if p = "" then s1 else { s1 with provider := p }
  | none => s1

/-- The (apiKey, provider) pair observable after mounting a fresh component
over a given store. -/
def loadSettings (store : LocalStorage) : String × String :=
  let s := loadStoredSettings (initialState "") store
  (s.apiKey, s.provider)

/-- The provider dispatch of `handleSubmit` (lines 121-125): anthropic and
openai each issue their call; any other provider value issues none and
leaves `responseText` undefined. -/
def dispatchCall (provider apiKey : String) (messageHistory : List Message)
    (fa : Except String AnthropicResponse) (fo : Except String OpenAIResponse) :
    Option (Request × Except String String) :=
  if provider = "anthropic" then
    some (callAnthropicAPI apiKey messageHistory fa)
  else if provider = "openai" then
    some (callOpenAIAPI apiKey messageHistory fo)
  else
    none

/-- `handleSubmit` (lines 104-142) as a pure step: returns the next state and
the list of HTTP requests issued.  The guard mirrors
`!input.trim() || isLoading || !apiKey`; on pass it appends the user message
(raw input), clears the input, calls the selected provider with the mapped
history, and appends one assistant message: the reply text on success, an
`Error: ...` string on failure, or `undefined` content when no provider
matched; `isLoading` ends false via the `finally`. -/
def handleSubmit (s : ChatState) (fa : Except String AnthropicResponse)
    (fo : Except String OpenAIResponse) : ChatState × List Request :=
  if jsTrim s.input = "" ∨ s.isLoading = true ∨ s.apiKey = "" then
    (s, [])
  else
    let userMessage : Message := { role := "user", content := some s.input }
    let newMessages := s.messages ++ [userMessage]
    let messageHistory := newMessages.map (fun msg => { role := msg.role, content := msg.content })
    match dispatchCall s.provider s.apiKey messageHistory fa fo with
    | some (req, Except.ok text) =>
        ({ s with messages := newMessages ++ [{ role := "assistant", content := some text }],
                  input := "", isLoading := false }, [req])
    | some (req, Except.error m) =>
        ({ s with messages := newMessages ++ [⟨"assistant", some ("Error: " ++ m ++ ". Please check your API key in settings.")⟩],
                  input := "", isLoading := false }, [req])
    | none =>
        ({ s with messages := newMessages ++ [{ role := "assistant", content := none }],
                  input := "", isLoading := false }, [])

/-- A user-visible operation on the component plus its store. -/
inductive Op where
  | submit (fa : Except String AnthropicResponse) (fo : Except String OpenAIResponse)
  | typeInput (t : String)
  | typeApiKey (k : String)
  | pickProvider (p : String)
  | save
  | clear
  | loadStored
deriving Repr

/-- The whole system: component state plus durable store. -/
structure Sys where
  chat : ChatState
  store : LocalStorage
deriving DecidableEq, Repr

/-- One operation applied to the system. -/
def step (s : Sys) (op : Op) : Sys :=
  match op with
  | Op.submit fa fo => { s with chat := (handleSubmit s.chat fa fo).1 }
  | Op.typeInput t => { s with chat := { s.chat with input := t } }
  | Op.typeApiKey k => { s with chat := { s.chat with apiKey := k } }
  | Op.pickProvider p => { s with chat := { s.chat with provider := p } }
  | Op.save =>
      let r := saveSettings s.chat s.store
      { chat := r.1, store := r.2 }
  | Op.clear =>
      let r := clearSettings s.chat s.store
      { chat := r.1, store := r.2 }
  | Op.loadStored => { s with chat := loadStoredSettings s.chat s.store }

/-- A sequence of operations applied in order. -/
def run (s : Sys) (ops : List Op) : Sys :=
  ops.foldl step s

/-- The `newMessages.map(msg => ({role, content}))` projection is the
identity on the embedded `Message` type. -/
theorem map_role_content (l : List Message) :
    l.map (fun msg => { role := msg.role, content := msg.content : Message }) = l := by
  induction l with
  | nil => rfl
  | cons m t ih => simp [List.map, ih]

/-- A concrete reachable state used to instantiate hypothesised theorems. -/
def sampleState : ChatState :=
  { messages := [⟨"assistant", some "Hello! How can I help you today?"⟩]
    input := "hello"
    isLoading := false
    apiKey := "sk-ant-x"
    provider := "anthropic"
    showSettings := false }

/-- C2: submitting with blank input, while loading, or with empty apiKey is a
no-op: the state (messages included) is unchanged and no request is issued. -/
theorem submit_guard_noop (s : ChatState) (fa : Except String AnthropicResponse)
    (fo : Except String OpenAIResponse)
    (h : jsTrim s.input = "" ∨ s.isLoading = true ∨ s.apiKey = "") :
    handleSubmit s fa fo = (s, []) := by
  unfold handleSubmit
  rw [if_pos h]

/-- C2 witness: blank (whitespace-only) input with a key present and idle. -/
theorem submit_guard_noop_witness :
    handleSubmit { sampleState with input := "   " } (Except.error "net") (Except.error "net")
      = ({ sampleState with input := "   " }, []) :=
  submit_guard_noop { sampleState with input := "   " } (Except.error "net") (Except.error "net")
    (Or.inl (by decide))

/-- C4: after clear, both durable entries are absent, and a fresh load over
that store yields the empty preferences (no key, default provider). -/
theorem clear_then_load_empty (s : ChatState) (store : LocalStorage) :
    (clearSettings s store).2.ai_api_key = none
    ∧ (clearSettings s store).2.ai_provider = none
    ∧ loadSettings (clearSettings s store).2 = ("", "anthropic") := by
  refine ⟨rfl, rfl, ?_⟩
  simp [clearSettings, loadSettings, loadStoredSettings, initialState]

/-- C10: when the guard passes, the appended user message stores the raw
input text — trimming is applied only in the guard, never to the content. -/
theorem submit_stores_raw_input (s : ChatState) (fa : Except String AnthropicResponse)
    (fo : Except String OpenAIResponse)
    (hin : ¬ jsTrim s.input = "") (hload : s.isLoading = false) (hkey : ¬ s.apiKey = "") :
    ∃ rest, (handleSubmit s fa fo).1.messages
      = s.messages ++ { role := "user", content := some s.input } :: rest := by
  have hg : ¬ (jsTrim s.input = "" ∨ s.isLoading = true ∨ s.apiKey = "") := by
    simp [hin, hload, hkey]
  unfold handleSubmit
  rw [if_neg hg]
  simp only [map_role_content]
  cases hd : dispatchCall s.provider s.apiKey
      (s.messages ++ [{ role := "user", content := some s.input }]) fa fo with
  | none => exact ⟨[{ role := "assistant", content := none }], by simp [hd]⟩
  | some c =>
    obtain ⟨req, r⟩ := c
    cases r with
    | ok text => exact ⟨[{ role := "assistant", content := some text }], by simp [hd]⟩
    | error m =>
      exact ⟨[⟨"assistant", some ("Error: " ++ m ++ ". Please check your API key in settings.")⟩],
        by simp [hd]⟩

/-- C10 witness: input with leading and trailing whitespace is stored raw. -/
theorem submit_stores_raw_input_witness :
    ∃ rest, (handleSubmit { sampleState with input := "  hi  " }
        (Except.ok { ok := true, errorMessage := none, content := [{ text := "yo" }] })
        (Except.error "net")).1.messages
      = sampleState.messages ++ { role := "user", content := some "  hi  " } :: rest :=
  submit_stores_raw_input { sampleState with input := "  hi  " }
    (Except.ok { ok := true, errorMessage := none, content := [{ text := "yo" }] })
    (Except.error "net") (by decide) rfl (by decide)

/-- C9: with a provider value that is neither recognized tag, a guarded
submit appends the user message, issues no request, appends an assistant
message with undefined content, and ends with the loading flag false. -/
theorem submit_unknown_provider (s : ChatState) (fa : Except String AnthropicResponse)
    (fo : Except String OpenAIResponse)
    (hin : ¬ jsTrim s.input = "") (hload : s.isLoading = false) (hkey : ¬ s.apiKey = "")
    (hp1 : ¬ s.provider = "anthropic") (hp2 : ¬ s.provider = "openai") :
    (handleSubmit s fa fo).1.messages
      = s.messages ++ [{ role := "user", content := some s.input },
          { role := "assistant", content := none }]
    ∧ (handleSubmit s fa fo).2 = []
    ∧ (handleSubmit s fa fo).1.isLoading = false := by
  have hg : ¬ (jsTrim s.input = "" ∨ s.isLoading = true ∨ s.apiKey = "") := by
    simp [hin, hload, hkey]
  unfold handleSubmit
  rw [if_neg hg]
  simp only [map_role_content]
  have hd : dispatchCall s.provider s.apiKey
      (s.messages ++ [{ role := "user", content := some s.input }]) fa fo = none := by
    unfold dispatchCall
    rw [if_neg hp1, if_neg hp2]
  rw [hd]
  simp

/-- C9 witness: provider "gemini" is dispatched to neither adapter. -/
theorem submit_unknown_provider_witness :
    (handleSubmit { sampleState with provider := "gemini" }
        (Except.error "net") (Except.error "net")).1.messages
      = sampleState.messages ++ [{ role := "user", content := some "hello" },
          { role := "assistant", content := none }]
    ∧ (handleSubmit { sampleState with provider := "gemini" }
        (Except.error "net") (Except.error "net")).2 = []
    ∧ (handleSubmit { sampleState with provider := "gemini" }
        (Except.error "net") (Except.error "net")).1.isLoading = false :=
  submit_unknown_provider { sampleState with provider := "gemini" }
    (Except.error "net") (Except.error "net")
    (by decide) rfl (by decide) (by decide) (by decide)

/-- The assistant content a settled adapter call produces (lines 127-138):
the reply text on success, the formatted error string on failure. -/
def turnReply (r : Except String String) : String :=
  match r with
  | Except.ok text => text
  | Except.error m => "Error: " ++ m ++ ". Please check your API key in settings."

/-- C1: with non-blank input, a non-empty apiKey, the system idle, and the
provider dispatching to an adapter, the completed turn appends exactly the
user message (input as content) and then exactly one assistant message —
the reply text on success, the error string on failure — and issues exactly
the single request handed to the adapter, whose history already ends with
the user message. -/
theorem submit_appends_user_then_assistant (s : ChatState)
    (fa : Except String AnthropicResponse) (fo : Except String OpenAIResponse)
    (req : Request) (r : Except String String)
    (hin : ¬ jsTrim s.input = "") (hload : s.isLoading = false) (hkey : ¬ s.apiKey = "")
    (hcall : dispatchCall s.provider s.apiKey
        (s.messages ++ [{ role := "user", content := some s.input }]) fa fo = some (req, r)) :
    (handleSubmit s fa fo).1.messages
      = s.messages ++ [{ role := "user", content := some s.input },
          { role := "assistant", content := some (turnReply r) }]
    ∧ (handleSubmit s fa fo).2 = [req] := by
  have hg : ¬ (jsTrim s.input = "" ∨ s.isLoading = true ∨ s.apiKey = "") := by
    simp [hin, hload, hkey]
  unfold handleSubmit
  rw [if_neg hg]
  simp only [map_role_content]
  cases r with
  | ok text => rw [hcall]; simp [turnReply]
  | error m => rw [hcall]; simp [turnReply]

/-- C1 witness: a successful anthropic turn on a concrete state. -/
theorem submit_appends_user_then_assistant_witness :
    (handleSubmit sampleState
        (Except.ok { ok := true, errorMessage := none, content := [{ text := "hi there" }] })
        (Except.error "net")).1.messages
      = sampleState.messages ++ [{ role := "user", content := some "hello" },
          { role := "assistant", content := some "hi there" }]
    ∧ (handleSubmit sampleState
        (Except.ok { ok := true, errorMessage := none, content := [{ text := "hi there" }] })
        (Except.error "net")).2
      = [Request.anthropic
          { url := "https://api.anthropic.com/v1/messages"
            method := "POST"
            contentType := "application/json"
            xApiKey := "sk-ant-x"
            anthropicVersion := "2023-06-01"
            model := "claude-3-5-sonnet-20241022"
            max_tokens := 2048
            messages := sampleState.messages ++ [{ role := "user", content := some "hello" }] }] :=
  submit_appends_user_then_assistant sampleState
    (Except.ok { ok := true, errorMessage := none, content := [{ text := "hi there" }] })
    (Except.error "net") _ (Except.ok "hi there") (by decide) rfl (by decide) rfl

/-- C5: with provider anthropic and a guarded submit, exactly one POST goes
to the anthropic endpoint, carrying the raw key in its header, the fixed
protocol-version string, the fixed model identifier, the fixed max_tokens,
and the full (non-empty) history verbatim; on an ok response the assistant
message appended holds the text of the first content element. -/
theorem anthropic_request_shape (s : ChatState) (fo : Except String OpenAIResponse)
    (resp : AnthropicResponse) (block : ContentBlock) (rest : List ContentBlock)
    (hin : ¬ jsTrim s.input = "") (hload : s.isLoading = false) (hkey : ¬ s.apiKey = "")
    (hprov : s.provider = "anthropic")
    (hok : resp.ok = true) (hcontent : resp.content = block :: rest) :
    (handleSubmit s (Except.ok resp) fo).2
      = [Request.anthropic
          { url := "https://api.anthropic.com/v1/messages"
            method := "POST"
            contentType := "application/json"
            xApiKey := s.apiKey
            anthropicVersion := "2023-06-01"
            model := "claude-3-5-sonnet-20241022"
            max_tokens := 2048
            messages := s.messages ++ [{ role := "user", content := some s.input }] }]
    ∧ (handleSubmit s (Except.ok resp) fo).1.messages
      = s.messages ++ [{ role := "user", content := some s.input },
          { role := "assistant", content := some block.text }]
    ∧ s.messages ++ [{ role := "user", content := some s.input }] ≠ [] := by
  have hg : ¬ (jsTrim s.input = "" ∨ s.isLoading = true ∨ s.apiKey = "") := by
    simp [hin, hload, hkey]
  unfold handleSubmit
  rw [if_neg hg]
  simp only [map_role_content]
  simp [dispatchCall, hprov, callAnthropicAPI, hok, hcontent]

/-- C5 witness: concrete anthropic turn, checking request and reply. -/
theorem anthropic_request_shape_witness :
    (handleSubmit sampleState
        (Except.ok { ok := true, errorMessage := none, content := [{ text := "hi there" }] })
        (Except.error "net")).2
      = [Request.anthropic
          { url := "https://api.anthropic.com/v1/messages"
            method := "POST"
            contentType := "application/json"
            xApiKey := "sk-ant-x"
            anthropicVersion := "2023-06-01"
            model := "claude-3-5-sonnet-20241022"
            max_tokens := 2048
            messages := sampleState.messages ++ [{ role := "user", content := some "hello" }] }]
    ∧ (handleSubmit sampleState
        (Except.ok { ok := true, errorMessage := none, content := [{ text := "hi there" }] })
        (Except.error "net")).1.messages
      = sampleState.messages ++ [{ role := "user", content := some "hello" },
          { role := "assistant", content := some "hi there" }]
    ∧ sampleState.messages ++ [{ role := "user", content := some "hello" }] ≠ [] :=
  anthropic_request_shape sampleState (Except.error "net")
    { ok := true, errorMessage := none, content := [{ text := "hi there" }] }
    { text := "hi there" } [] (by decide) rfl (by decide) rfl rfl rfl

/-- C6: with provider openai and a guarded submit, exactly one POST goes to
the openai endpoint with a Bearer authorization header, the fixed model
identifier, and the full (non-empty) history verbatim; on an ok response the
assistant message appended holds the first choice message content. -/
theorem openai_request_shape (s : ChatState) (fa : Except String AnthropicResponse)
    (resp : OpenAIResponse) (choice : Choice) (rest : List Choice)
    (hin : ¬ jsTrim s.input = "") (hload : s.isLoading = false) (hkey : ¬ s.apiKey = "")
    (hprov : s.provider = "openai")
    (hok : resp.ok = true) (hchoices : resp.choices = choice :: rest) :
    (handleSubmit s fa (Except.ok resp)).2
      = [Request.openai
          { url := "https://api.openai.com/v1/chat/completions"
            method := "POST"
            contentType := "application/json"
            authorization := "Bearer " ++ s.apiKey
            model := "gpt-4"
            messages := s.messages ++ [{ role := "user", content := some s.input }] }]
    ∧ (handleSubmit s fa (Except.ok resp)).1.messages
      = s.messages ++ [{ role := "user", content := some s.input },
          { role := "assistant", content := some choice.message.content }]
    ∧ s.messages ++ [{ role := "user", content := some s.input }] ≠ [] := by
  have hg : ¬ (jsTrim s.input = "" ∨ s.isLoading = true ∨ s.apiKey = "") := by
    simp [hin, hload, hkey]
  unfold handleSubmit
  rw [if_neg hg]
  simp only [map_role_content]
  have hp : ¬ s.provider = "anthropic" := by simp [hprov]
  simp [dispatchCall, hp, hprov, callOpenAIAPI, hok, hchoices]

/-- C6 witness: concrete openai turn, checking request and reply. -/
theorem openai_request_shape_witness :
    (handleSubmit { sampleState with provider := "openai" } (Except.error "net")
        (Except.ok { ok := true, errorMessage := none,
                     choices := [{ message := { content := "sure" } }] })).2
      = [Request.openai
          { url := "https://api.openai.com/v1/chat/completions"
            method := "POST"
            contentType := "application/json"
            authorization := "Bearer " ++ "sk-ant-x"
            model := "gpt-4"
            messages := sampleState.messages ++ [{ role := "user", content := some "hello" }] }]
    ∧ (handleSubmit { sampleState with provider := "openai" } (Except.error "net")
        (Except.ok { ok := true, errorMessage := none,
                     choices := [{ message := { content := "sure" } }] })).1.messages
      = sampleState.messages ++ [{ role := "user", content := some "hello" },
          { role := "assistant", content := some "sure" }]
    ∧ sampleState.messages ++ [{ role := "user", content := some "hello" }] ≠ [] :=
  openai_request_shape { sampleState with provider := "openai" } (Except.error "net")
    { ok := true, errorMessage := none, choices := [{ message := { content := "sure" } }] }
    { message := { content := "sure" } } [] (by decide) rfl (by decide) rfl rfl rfl

/-- C3 counterexample: save with apiKey " sk " and provider "" (trimmed key
non-empty) followed by load yields ("sk", "anthropic"), not the pair that
was passed to save — the store keeps only the trimmed key, and an empty
stored provider is falsy on load, so it falls back to the default. -/
theorem save_load_not_identity :
    jsTrim " sk " ≠ ""
    ∧ loadSettings (saveSettings { initialState "" with apiKey := " sk ", provider := "" }
        { ai_api_key := none, ai_provider := none }).2 = ("sk", "anthropic")
    ∧ (("sk", "anthropic") : String × String) ≠ (" sk ", "") := by
  refine ⟨by decide, by decide, by decide⟩

/-- C3 amended: for an apiKey with non-empty trimmed form and a non-empty
provider value, save followed by load returns the trimmed apiKey and exactly
that provider (hence exactly the saved pair whenever the apiKey carries no
surrounding whitespace). -/
theorem save_then_load (s : ChatState) (store : LocalStorage)
    (hkey : ¬ jsTrim s.apiKey = "") (hprov : ¬ s.provider = "") :
    loadSettings (saveSettings s store).2 = (jsTrim s.apiKey, s.provider) := by
  unfold saveSettings
  rw [if_neg hkey]
  simp [loadSettings, loadStoredSettings, hkey, hprov, initialState]

/-- C3 amended witness: a whitespace-free key round-trips exactly. -/
theorem save_then_load_witness :
    loadSettings (saveSettings { initialState "" with apiKey := "sk-abc", provider := "openai" }
        { ai_api_key := none, ai_provider := none }).2 = (jsTrim "sk-abc", "openai") :=
  save_then_load { initialState "" with apiKey := "sk-abc", provider := "openai" }
    { ai_api_key := none, ai_provider := none } (by decide) (by decide)

/-- C7 counterexample: a non-ok response whose body carries a present but
empty nested error message produces the generic failure string, not the
(empty) field value — JavaScript `||` treats the empty string as absent. -/
theorem error_message_empty_field_generic :
    (callAnthropicAPI "sk" [] (Except.ok { ok := false, errorMessage := some "", content := [] })).2
      = Except.error "API request failed"
    ∧ ("API request failed" : String) ≠ "" := by
  refine ⟨rfl, by decide⟩

/-- C7 amended: on a non-2xx response either adapter fails with the body
error message when it is present and non-empty, with the generic string when
it is absent; and the 401 scenario with body error message "bad key" makes
the turn append exactly the assistant message
"Error: bad key. Please check your API key in settings.". -/
theorem error_message_propagation
    (key : String) (hist : List Message) (em : String)
    (respA : AnthropicResponse) (respO : OpenAIResponse)
    (s : ChatState) (fo : Except String OpenAIResponse)
    (hokA : respA.ok = false) (hokO : respO.ok = false)
    (hin : ¬ jsTrim s.input = "") (hload : s.isLoading = false) (hkey : ¬ s.apiKey = "")
    (hprov : s.provider = "anthropic") :
    (respA.errorMessage = some em → ¬ em = "" →
        (callAnthropicAPI key hist (Except.ok respA)).2 = Except.error em)
    ∧ (respA.errorMessage = none →
        (callAnthropicAPI key hist (Except.ok respA)).2 = Except.error "API request failed")
    ∧ (respO.errorMessage = some em → ¬ em = "" →
        (callOpenAIAPI key hist (Except.ok respO)).2 = Except.error em)
    ∧ (respO.errorMessage = none →
        (callOpenAIAPI key hist (Except.ok respO)).2 = Except.error "API request failed")
    ∧ (handleSubmit s (Except.ok { ok := false, errorMessage := some "bad key", content := [] }) fo).1.messages
      = s.messages ++ [{ role := "user", content := some s.input },
          { role := "assistant",
            content := some "Error: bad key. Please check your API key in settings." }] := by
  have hg : ¬ (jsTrim s.input = "" ∨ s.isLoading = true ∨ s.apiKey = "") := by
    simp [hin, hload, hkey]
  refine ⟨?_, ?_, ?_, ?_, ?_⟩
  · intro hm hne
    simp [callAnthropicAPI, hokA, hm, apiErrorMessage, hne]
  · intro hm
    simp [callAnthropicAPI, hokA, hm, apiErrorMessage]
  · intro hm hne
    simp [callOpenAIAPI, hokO, hm, apiErrorMessage, hne]
  · intro hm
    simp [callOpenAIAPI, hokO, hm, apiErrorMessage]
  · unfold handleSubmit
    rw [if_neg hg]
    simp only [map_role_content]
    simp [dispatchCall, hprov, callAnthropicAPI, apiErrorMessage]

/-- C7 amended witness: concrete instances of every branch. -/
theorem error_message_propagation_witness :
    ((AnthropicResponse.mk false (some "oops") []).errorMessage = some "oops" → ¬ "oops" = "" →
        (callAnthropicAPI "k" [] (Except.ok (AnthropicResponse.mk false (some "oops") []))).2
          = Except.error "oops")
    ∧ ((AnthropicResponse.mk false (some "oops") []).errorMessage = none →
        (callAnthropicAPI "k" [] (Except.ok (AnthropicResponse.mk false (some "oops") []))).2
          = Except.error "API request failed")
    ∧ ((OpenAIResponse.mk false (some "oops") []).errorMessage = some "oops" → ¬ "oops" = "" →
        (callOpenAIAPI "k" [] (Except.ok (OpenAIResponse.mk false (some "oops") []))).2
          = Except.error "oops")
    ∧ ((OpenAIResponse.mk false (some "oops") []).errorMessage = none →
        (callOpenAIAPI "k" [] (Except.ok (OpenAIResponse.mk false (some "oops") []))).2
          = Except.error "API request failed")
    ∧ (handleSubmit sampleState
        (Except.ok { ok := false, errorMessage := some "bad key", content := [] })
        (Except.error "net")).1.messages
      = sampleState.messages ++ [{ role := "user", content := some "hello" },
          { role := "assistant",
            content := some "Error: bad key. Please check your API key in settings." }] :=
  error_message_propagation "k" [] "oops"
    (AnthropicResponse.mk false (some "oops") []) (OpenAIResponse.mk false (some "oops") [])
    sampleState (Except.error "net") rfl rfl (by decide) rfl (by decide) rfl

/-- Any submit leaves the existing message list as a prefix. -/
theorem handleSubmit_messages_extend (s : ChatState) (fa : Except String AnthropicResponse)
    (fo : Except String OpenAIResponse) :
    ∃ t, (handleSubmit s fa fo).1.messages = s.messages ++ t := by
  by_cases h : jsTrim s.input = "" ∨ s.isLoading = true ∨ s.apiKey = ""
  · exact ⟨[], by simp [handleSubmit, h]⟩
  · unfold handleSubmit
    rw [if_neg h]
    simp only [map_role_content]
    cases hd : dispatchCall s.provider s.apiKey
        (s.messages ++ [{ role := "user", content := some s.input }]) fa fo with
    | none =>
      exact ⟨[{ role := "user", content := some s.input }, { role := "assistant", content := none }],
        by simp [hd]⟩
    | some c =>
      obtain ⟨req, r⟩ := c
      cases r with
      | ok text =>
        exact ⟨[{ role := "user", content := some s.input },
          { role := "assistant", content := some text }], by simp [hd]⟩
      | error m =>
        exact ⟨[⟨"user", some s.input⟩,
          ⟨"assistant", some ("Error: " ++ m ++ ". Please check your API key in settings.")⟩],
          by simp [hd]⟩

/-- Every single operation leaves the existing message list as a prefix. -/
theorem step_messages_extend (s : Sys) (op : Op) :
    ∃ t, (step s op).chat.messages = s.chat.messages ++ t := by
  cases op with
  | submit fa fo =>
    obtain ⟨t, ht⟩ := handleSubmit_messages_extend s.chat fa fo
    exact ⟨t, by simpa [step] using ht⟩
  | typeInput t => exact ⟨[], by simp [step]⟩
  | typeApiKey k => exact ⟨[], by simp [step]⟩
  | pickProvider p => exact ⟨[], by simp [step]⟩
  | save =>
    refine ⟨[], ?_⟩
    simp only [step]
    unfold saveSettings
    split <;> simp
  | clear => exact ⟨[], by simp [step, clearSettings]⟩
  | loadStored =>
    refine ⟨[], ?_⟩
    simp only [step]
    unfold loadStoredSettings
    cases s.store.ai_api_key <;> cases s.store.ai_provider <;>
      simp only [] <;> (try split) <;> (try split) <;> simp

/-- Unfolding one step of `run`. -/
theorem run_cons (s : Sys) (op : Op) (ops : List Op) :
    run s (op :: ops) = run (step s op) ops := rfl

/-- C8: over any sequence of operations (submits with any network outcomes,
typing, save, clear, reload of stored settings) the conversation only grows:
the earlier message list is always a prefix of the later one, so no message
is ever removed, altered, or moved. -/
theorem messages_monotone (s : Sys) (ops : List Op) :
    ∃ t, (run s ops).chat.messages = s.chat.messages ++ t := by
  induction ops generalizing s with
  | nil => exact ⟨[], by simp [run]⟩
  | cons op rest ih =>
    obtain ⟨t1, h1⟩ := step_messages_extend s op
    obtain ⟨t2, h2⟩ := ih (step s op)
    refine ⟨t1 ++ t2, ?_⟩
    rw [run_cons, h2, h1, List.append_assoc]
